import Mathlib

/-!
Verification of the fleet-rollout orchestrator `scripts/update-services.sh`.

The script is embedded shallowly: every external `aws` invocation is a lookup
in an `Oracle` of collaborator responses, and the control flow of `main` —
including the `set -e` (errexit) semantics of bash — is reproduced as a pure
function from the service list, the `WAIT_FOR_STABLE` configuration string and
the oracle to a `RunReport`.

Bash semantics encoded here (each checked against `man bash`, § `set -e`):
* a function called as the condition of an `if` (or under `!`) has errexit
  suppressed for its whole body — so `update_service` (line 201) and
  `wait_for_service` (line 223) return their status without killing the run;
* `local x=$(cmd)` masks the failure of `cmd` (the status is that of `local`),
  so the describe calls inside `check_service_health` never trip errexit;
* `[ "$r" -eq "$d" ]` with a non-numeric operand fails, taking the else
  branch, so a failed describe call makes `check_service_health` return 1;
* a plain call to a function that returns nonzero (`check_service_health`,
  line 237) or a plain failing command (the describe inside
  `get_deployment_status`, line 238) exits the whole script at once with that
  status, before the summary is printed.
-/

namespace UpdateServices

/-- Responses of the external collaborators (`aws` CLI) for one run, keyed by
the bare service name (the derived `${ENVIRONMENT_NAME}-${service}-service`
name is injective in the service for a fixed environment).  Exit statuses are
`Nat`s with `0` meaning success; `Option`-valued fields model the text output
of a query, `none` standing for a failed or empty query output. -/
structure Oracle where
  /-- `command -v aws` succeeds (line 50). -/
  awsInstalled : Bool
  /-- `aws ecs describe-clusters` succeeds (line 56). -/
  clusterFound : Bool
  /-- Output of the `services[0].status` query (lines 72-77); `none` when the
  call fails, in which case `$service_status` is the empty string. -/
  serviceStatus : String → Option String
  /-- Exit status of `aws ecs update-service --force-new-deployment`
  (lines 86-92). -/
  updateExit : String → Nat
  /-- Exit status of `aws ecs wait services-stable` (lines 112-115). -/
  waitExit : String → Nat
  /-- Parsed `services[0].runningCount` (lines 149-154); `none` when the call
  fails or the output is not a number. -/
  runningCount : String → Option Nat
  /-- Parsed `services[0].desiredCount` (lines 156-161). -/
  desiredCount : String → Option Nat
  /-- Exit status of the `describe-services --output table` call inside
  `get_deployment_status` (lines 134-139). -/
  depStatusExit : String → Nat

/-- Classification of the immediate response of the Trigger phase for one
service (spec § 3 `TriggerState`, restricted to the attempted states). -/
inductive TriggerResult where
  | triggered
  | rejectedNotActive
  | rejectedOther
deriving DecidableEq, Repr

/-- Result of `update_service` (lines 65-101): the classification together
with whether the forced-redeployment command was actually issued. -/
structure TriggerStep where
  result : TriggerResult
  redeployIssued : Bool
deriving DecidableEq, Repr

/-- `update_service` (lines 65-101): query the service status; anything other
than the literal `ACTIVE` (including a failed query, which leaves the variable
empty) returns 1 before the redeployment command is issued; otherwise issue
`update-service --force-new-deployment` and report its status. -/
def update_service (o : Oracle) (svc : String) : TriggerStep :=
  if o.serviceStatus svc = some "ACTIVE" then
    if o.updateExit svc = 0 then
      ⟨TriggerResult.triggered, true⟩
    else
      ⟨TriggerResult.rejectedOther, true⟩
  else
    ⟨TriggerResult.rejectedNotActive, false⟩

/-- Whether `update_service` succeeded (the `if update_service "$service"`
test on line 201). -/
def triggerOk (o : Oracle) (svc : String) : Bool :=
  decide ((update_service o svc).result = TriggerResult.triggered)

/-- `wait_for_service` (lines 104-125): succeeds exactly when the
`aws ecs wait services-stable` call exits 0. -/
def wait_for_service (o : Oracle) (svc : String) : Bool :=
  o.waitExit svc == 0

/-- `check_service_health` (lines 143-172): returns 0 exactly when both
describe calls produce numbers and they are equal; a failed describe leaves
its variable empty, the `-eq` test fails, and the function returns 1. -/
def check_service_health (o : Oracle) (svc : String) : Bool :=
  match o.runningCount svc, o.desiredCount svc with
  | some r, some d => r == d
  | _, _ => false

/-- The calls the run issued, in order, per phase. -/
structure Trace where
  /-- Services for which `update_service` was invoked (loop at 195-206). -/
  triggerCalls : List String
  /-- Services for which the forced redeployment was actually issued. -/
  redeployCalls : List String
  /-- Services for which `wait_for_service` was invoked (loop at 221-226). -/
  waitCalls : List String
  /-- Services for which `check_service_health` was invoked (line 237). -/
  healthCalls : List String
  /-- Services for which `get_deployment_status` was invoked (line 238). -/
  depStatusCalls : List String
deriving DecidableEq, Repr

/-- The trace of a run that aborted before triggering anything. -/
def emptyTrace : Trace := ⟨[], [], [], [], []⟩

/-- Observable outcome of one run of the script. -/
structure RunReport where
  /-- The process exit status. -/
  exitCode : Nat
  /-- `updated_services` at the end of the run (bookkeeping array). -/
  updatedServices : List String
  /-- `failed_services` at the end of the run (bookkeeping array). -/
  failedServices : List String
  /-- The services the final summary lists as updated successfully: the
  success branch (lines 250-253) lists `updated_services`; the failure branch
  (lines 259-262) lists only the failed services, and a run killed by
  errexit prints no summary at all. -/
  summarySucceeded : List String
  trace : Trace
deriving DecidableEq, Repr

/-- Outcome of the final-health-check loop (lines 235-239) under errexit:
the services audited so far and, when a `check_service_health` call returned
nonzero (exit status 1) or a `get_deployment_status` describe call failed
(its own exit status), the status the script died with. -/
structure AuditResult where
  healthCalls : List String
  depStatusCalls : List String
  abortCode : Option Nat
deriving DecidableEq, Repr

/-- The final-health-check loop (lines 235-239).  `check_service_health` is a
plain statement, so a nonzero return kills the run with status 1 before
`get_deployment_status` runs for that service; a failing describe inside
`get_deployment_status` kills the run with the describe call's status. -/
def auditLoop (o : Oracle) : List String → AuditResult
  | [] => ⟨[], [], none⟩
  | svc :: rest =>
    if check_service_health o svc then
      if o.depStatusExit svc = 0 then
        let r := auditLoop o rest
        ⟨svc :: r.healthCalls, svc :: r.depStatusCalls, r.abortCode⟩
      else
        ⟨[svc], [svc], some (o.depStatusExit svc)⟩
    else
      ⟨[svc], [], some 1⟩

/-- The fleet default set (line 24). -/
def defaultServices : List String := ["auth", "users", "tasks", "frontend"]

/-- `SERVICES` (lines 22-27): the `[ -z "$1" ]` test selects the default set
when the first positional argument is absent or empty. -/
def servicesOf : Option String → List String
  | none => defaultServices
  | some s => if s = "" then defaultServices else [s]

/-- `WAIT_FOR_STABLE="${WAIT_FOR_STABLE:-true}"` (line 20): the `:-` form
substitutes the default both when the variable is unset and when it is
empty. -/
def resolveWaitForStable : Option String → String
  | none => "true"
  | some s => if s = "" then "true" else s

/-- `main` (lines 175-264) for a given `SERVICES` array and resolved
`WAIT_FOR_STABLE` value, under errexit.  Phases: prerequisites (abort with 1),
trigger loop, exit 1 on any trigger failure (line 211), optional wait loop,
final-health-check loop (which can kill the run, see `auditLoop`), summary. -/
def runMain (svcs : List String) (waitForStable : String) (o : Oracle) : RunReport :=
  if o.awsInstalled then
    if o.clusterFound then
      let updated := svcs.filter (fun s => triggerOk o s)
      let failedT := svcs.filter (fun s => ! triggerOk o s)
      let redeploys := svcs.filter (fun s => (update_service o s).redeployIssued)
      if failedT.isEmpty then
        let doWait := waitForStable == "true"
        let waitCalls := if doWait then updated else []
        let failedW :=
          if doWait then updated.filter (fun s => ! wait_for_service o s) else []
        let a := auditLoop o updated
        let tr : Trace := ⟨svcs, redeploys, waitCalls, a.healthCalls, a.depStatusCalls⟩
        match a.abortCode with
        | some c => ⟨c, updated, failedW, [], tr⟩
        | none =>
          if failedW.isEmpty then
            ⟨0, updated, [], updated, tr⟩
          else
            ⟨1, updated, failedW, [], tr⟩
      else
        ⟨1, updated, failedT, [], ⟨svcs, redeploys, [], [], []⟩⟩
    else
      ⟨1, [], [], [], emptyTrace⟩
  else
    ⟨1, [], [], [], emptyTrace⟩

/-- The whole script: resolve `SERVICES` from the positional argument and
`WAIT_FOR_STABLE` from the environment, then run `main`. -/
def run (arg : Option String) (waitEnv : Option String) (o : Oracle) : RunReport :=
  runMain (servicesOf arg) (resolveWaitForStable waitEnv) o

/-! Concrete collaborator-response tables used to evaluate the embedding on
specific scenarios.  Each one makes every call succeed with a healthy fleet
except for the deviation its name describes. -/

/-- Every call succeeds: all services `ACTIVE`, every exit status 0, every
health audit reports 2 running of 2 desired. -/
def oracleAllFine : Oracle :=
  ⟨true, true, fun _ => some "ACTIVE", fun _ => 0, fun _ => 0,
   fun _ => some 2, fun _ => some 2, fun _ => 0⟩

/-- Trigger and wait succeed, but the health audit reports 1 running of 2
desired for every service. -/
def oracleDegradedHealth : Oracle :=
  ⟨true, true, fun _ => some "ACTIVE", fun _ => 0, fun _ => 0,
   fun _ => some 1, fun _ => some 2, fun _ => 0⟩

/-- Identical to `oracleAllFine` except that the `runningCount` describe call
of the health audit fails (its output is empty). -/
def oracleAuditCallFails : Oracle :=
  ⟨true, true, fun _ => some "ACTIVE", fun _ => 0, fun _ => 0,
   fun _ => none, fun _ => some 2, fun _ => 0⟩

/-- Every trigger succeeds, the health audits are fine, but
`aws ecs wait services-stable` times out (exit 255) for `frontend`. -/
def oracleWaitTimeout : Oracle :=
  ⟨true, true, fun _ => some "ACTIVE", fun _ => 0,
   fun s => if s == "frontend" then 255 else 0,
   fun _ => some 2, fun _ => some 2, fun _ => 0⟩

/-- The status query for `users` fails (service missing); everything else is
fine. -/
def oracleUsersMissing : Oracle :=
  ⟨true, true, fun s => if s == "users" then none else some "ACTIVE",
   fun _ => 0, fun _ => 0, fun _ => some 2, fun _ => some 2, fun _ => 0⟩

/-- Every service reports status `DRAINING` instead of `ACTIVE`. -/
def oracleDraining : Oracle :=
  ⟨true, true, fun _ => some "DRAINING", fun _ => 0, fun _ => 0,
   fun _ => some 2, fun _ => some 2, fun _ => 0⟩

/-- The `aws` CLI is not installed; everything else would be fine. -/
def oracleNoCli : Oracle :=
  ⟨false, true, fun _ => some "ACTIVE", fun _ => 0, fun _ => 0,
   fun _ => some 2, fun _ => some 2, fun _ => 0⟩

/-- Every status query fails, so every trigger is rejected. -/
def oracleTasksMissing : Oracle :=
  ⟨true, true, fun _ => none, fun _ => 0, fun _ => 0,
   fun _ => none, fun _ => none, fun _ => 0⟩

/-! Helper lemmas about the phases of `runMain`. -/

lemma filter_triggerOk_eq_self (o : Oracle) (svcs : List String)
    (ht : ∀ t ∈ svcs, triggerOk o t = true) :
    svcs.filter (fun s => triggerOk o s) = svcs :=
  List.filter_eq_self.mpr ht

lemma filter_not_triggerOk_eq_nil (o : Oracle) (svcs : List String)
    (ht : ∀ t ∈ svcs, triggerOk o t = true) :
    svcs.filter (fun s => ! triggerOk o s) = [] :=
  List.filter_eq_nil_iff.mpr (fun a ha => by simp [ht a ha])

lemma auditLoop_ok (o : Oracle) (l : List String)
    (ha : ∀ t ∈ l, check_service_health o t = true ∧ o.depStatusExit t = 0) :
    auditLoop o l = ⟨l, l, none⟩ := by
  induction l with
  | nil => rfl
  | cons x xs ih =>
    have hx := ha x (List.mem_cons_self x xs)
    have hxs : ∀ t ∈ xs, check_service_health o t = true ∧ o.depStatusExit t = 0 :=
      fun t htm => ha t (List.mem_cons_of_mem x htm)
    simp [auditLoop, hx.1, hx.2, ih hxs]

lemma runMain_triggerCalls (svcs : List String) (w : String) (o : Oracle)
    (hi : o.awsInstalled = true) (hc : o.clusterFound = true) :
    (runMain svcs w o).trace.triggerCalls = svcs := by
  unfold runMain
  simp only [hi, hc, if_true]
  repeat' split
  all_goals rfl

lemma runMain_waitCalls (svcs : List String) (w : String) (o : Oracle)
    (hi : o.awsInstalled = true) (hc : o.clusterFound = true)
    (ht : ∀ t ∈ svcs, triggerOk o t = true) :
    (runMain svcs w o).trace.waitCalls = if w == "true" then svcs else [] := by
  unfold runMain
  simp only [hi, hc, if_true, filter_triggerOk_eq_self o svcs ht,
    filter_not_triggerOk_eq_nil o svcs ht, List.isEmpty_nil]
  repeat' split
  all_goals simp_all

lemma runMain_all_ok (svcs : List String) (w : String) (o : Oracle)
    (hi : o.awsInstalled = true) (hc : o.clusterFound = true)
    (ht : ∀ t ∈ svcs, triggerOk o t = true)
    (ha : ∀ t ∈ svcs, check_service_health o t = true ∧ o.depStatusExit t = 0) :
    runMain svcs w o =
      (if (if w == "true" then svcs.filter (fun s => ! wait_for_service o s) else []).isEmpty then
        (⟨0, svcs, [], svcs,
          ⟨svcs, svcs.filter (fun s => (update_service o s).redeployIssued),
           if w == "true" then svcs else [], svcs, svcs⟩⟩ : RunReport)
      else
        ⟨1, svcs, if w == "true" then svcs.filter (fun s => ! wait_for_service o s) else [], [],
          ⟨svcs, svcs.filter (fun s => (update_service o s).redeployIssued),
           if w == "true" then svcs else [], svcs, svcs⟩⟩) := by
  unfold runMain
  simp only [hi, hc, if_true, filter_triggerOk_eq_self o svcs ht,
    filter_not_triggerOk_eq_nil o svcs ht, auditLoop_ok o svcs ha, List.isEmpty_nil]

/-- C1.  The claim states that whenever every Trigger call succeeds and
(waiting disabled OR every Wait call succeeds), the exit code is 0 and the
succeeded set is the full input.  The code violates this: with the single
service `auth`, waiting disabled, a successful trigger, and a health audit
reporting 1 running of 2 desired, `check_service_health` returns 1 at line
237 and `set -e` kills the run with exit status 1 before any summary is
printed. -/
theorem success_path_killed_by_degraded_health :
    triggerOk oracleDegradedHealth "auth" = true ∧
    (runMain ["auth"] "false" oracleDegradedHealth).exitCode = 1 ∧
    (runMain ["auth"] "false" oracleDegradedHealth).summarySucceeded = [] := by decide

/-- C2.  If some service's Trigger call fails, the run exits with status 1
(line 211) and `wait_for_service` is never invoked for any service. -/
theorem trigger_failure_exits_one_without_wait
    (svcs : List String) (w : String) (o : Oracle) (s : String)
    (hi : o.awsInstalled = true) (hc : o.clusterFound = true)
    (hs : s ∈ svcs) (hf : triggerOk o s = false) :
    (runMain svcs w o).exitCode = 1 ∧ (runMain svcs w o).trace.waitCalls = [] := by
  have hne : (svcs.filter (fun t => ! triggerOk o t)).isEmpty = false := by
    rw [List.isEmpty_eq_false]
    exact List.ne_nil_of_mem (List.mem_filter.mpr ⟨hs, by simp [hf]⟩)
  unfold runMain
  simp [hi, hc, hne]

/-- C2 witness: the scenario of spec § 8 B — a single service whose status
query fails — exits 1 with no wait calls. -/
theorem trigger_failure_exits_one_without_wait_witness :
    (runMain ["tasks"] "true" oracleTasksMissing).exitCode = 1 ∧
    (runMain ["tasks"] "true" oracleTasksMissing).trace.waitCalls = [] :=
  trigger_failure_exits_one_without_wait ["tasks"] "true" oracleTasksMissing "tasks" rfl rfl
    (by decide) (by decide)

/-- C3.  The claim states the exit code is independent of health-audit
outcomes when Trigger and Wait succeeded.  The code violates this: two runs
of `["auth"]` with wait enabled whose oracles differ only in the
`runningCount` audit response (`oracleAllFine` answers 2, `oracleAuditCallFails`
fails the call) exit 0 and 1 respectively, because `set -e` aborts at the
failed health check. -/
theorem exit_code_sensitive_to_health_audit :
    triggerOk oracleAllFine "auth" = true ∧
    wait_for_service oracleAllFine "auth" = true ∧
    triggerOk oracleAuditCallFails "auth" = true ∧
    wait_for_service oracleAuditCallFails "auth" = true ∧
    (runMain ["auth"] "true" oracleAllFine).exitCode = 0 ∧
    (runMain ["auth"] "true" oracleAuditCallFails).exitCode = 1 := by decide

/-- C4 counterexample: in the concrete scenario (`auth` stable, `frontend`
wait times out, health audits fine) the run exits 1 and lists `frontend` as
failed, but the summary lists no succeeded services at all — the failure
branch of the summary (lines 259-262) prints only the failed ones, so `auth`
is not reported as succeeded, contrary to the claim. -/
theorem wait_failure_summary_omits_succeeded :
    triggerOk oracleWaitTimeout "auth" = true ∧
    wait_for_service oracleWaitTimeout "auth" = true ∧
    (runMain ["auth", "frontend"] "true" oracleWaitTimeout).exitCode = 1 ∧
    (runMain ["auth", "frontend"] "true" oracleWaitTimeout).failedServices = ["frontend"] ∧
    (runMain ["auth", "frontend"] "true" oracleWaitTimeout).summarySucceeded = [] := by decide

/-- C4 (amended).  A failed `wait_for_service` adds the service to the failed
set while every service is still waited on, and the run exits 1 — but the
summary lists no succeeded services (the failure branch prints only the
failed ones).  The health audits are assumed to succeed; otherwise `set -e`
kills the run at the audit (still with a nonzero status). -/
theorem wait_failure_recorded_and_processing_continues
    (svcs : List String) (o : Oracle) (s : String)
    (hi : o.awsInstalled = true) (hc : o.clusterFound = true)
    (ht : ∀ t ∈ svcs, triggerOk o t = true)
    (hs : s ∈ svcs) (hw : wait_for_service o s = false)
    (ha : ∀ t ∈ svcs, check_service_health o t = true ∧ o.depStatusExit t = 0) :
    (runMain svcs "true" o).exitCode = 1 ∧
    s ∈ (runMain svcs "true" o).failedServices ∧
    (runMain svcs "true" o).trace.waitCalls = svcs ∧
    (runMain svcs "true" o).summarySucceeded = [] := by
  rw [runMain_all_ok svcs "true" o hi hc ht ha]
  have hmem : s ∈ svcs.filter (fun t => ! wait_for_service o t) :=
    List.mem_filter.mpr ⟨hs, by simp [hw]⟩
  have hne : (svcs.filter (fun t => ! wait_for_service o t)).isEmpty = false := by
    rw [List.isEmpty_eq_false]
    exact List.ne_nil_of_mem hmem
  simp [hne, hmem]

/-- C4 witness: the amended claim evaluated on the concrete scenario of the
claim (`auth` stable, `frontend` timing out). -/
theorem wait_failure_recorded_witness :
    (runMain ["auth", "frontend"] "true" oracleWaitTimeout).exitCode = 1 ∧
    "frontend" ∈ (runMain ["auth", "frontend"] "true" oracleWaitTimeout).failedServices ∧
    (runMain ["auth", "frontend"] "true" oracleWaitTimeout).trace.waitCalls = ["auth", "frontend"] ∧
    (runMain ["auth", "frontend"] "true" oracleWaitTimeout).summarySucceeded = [] :=
  wait_failure_recorded_and_processing_continues ["auth", "frontend"] oracleWaitTimeout "frontend"
    rfl rfl (by decide) (by decide) (by decide) (by decide)

/-- C5 counterexample: with `auth` triggering successfully and the trigger
for `users` failing, the run exits at line 211 before the final health
check, so the audit runs for no service at all — contradicting the claim
that the audit phase runs for every successfully triggered service in all
cases. -/
theorem trigger_failure_skips_audit_for_triggered :
    triggerOk oracleUsersMissing "auth" = true ∧
    triggerOk oracleUsersMissing "users" = false ∧
    (runMain ["auth", "users"] "true" oracleUsersMissing).trace.healthCalls = [] ∧
    (runMain ["auth", "users"] "true" oracleUsersMissing).exitCode = 1 := by decide

/-- C5 (amended).  The audit phase covers every triggered service only in
runs where every Trigger call succeeded (and, because of `set -e`, no audit
call itself kills the run). -/
theorem audit_covers_all_triggered_when_no_trigger_failure
    (svcs : List String) (w : String) (o : Oracle)
    (hi : o.awsInstalled = true) (hc : o.clusterFound = true)
    (ht : ∀ t ∈ svcs, triggerOk o t = true)
    (ha : ∀ t ∈ svcs, check_service_health o t = true ∧ o.depStatusExit t = 0) :
    (runMain svcs w o).trace.healthCalls = svcs ∧
    (runMain svcs w o).trace.depStatusCalls = svcs := by
  rw [runMain_all_ok svcs w o hi hc ht ha]
  refine ⟨?_, ?_⟩ <;> (repeat' split) <;> rfl

/-- C5 witness: a fully successful two-service run audits both services. -/
theorem audit_covers_all_triggered_witness :
    (runMain ["auth", "users"] "true" oracleAllFine).trace.healthCalls = ["auth", "users"] ∧
    (runMain ["auth", "users"] "true" oracleAllFine).trace.depStatusCalls = ["auth", "users"] :=
  audit_covers_all_triggered_when_no_trigger_failure ["auth", "users"] "true" oracleAllFine
    rfl rfl (by decide) (by decide)

/-- C6.  `update_service` issues the forced-redeployment command exactly when
the resolved status is `ACTIVE`; for any other status (or a failed status
query) it fails without issuing the command and is classified as
service-not-active. -/
theorem trigger_only_when_active (o : Oracle) (svc : String) :
    ((update_service o svc).redeployIssued = true ↔ o.serviceStatus svc = some "ACTIVE") ∧
    (o.serviceStatus svc ≠ some "ACTIVE" →
      update_service o svc = ⟨TriggerResult.rejectedNotActive, false⟩) := by
  unfold update_service
  by_cases h : o.serviceStatus svc = some "ACTIVE"
  · by_cases h2 : o.updateExit svc = 0 <;> simp [h, h2]
  · simp [h]

/-- C6 witness: a `DRAINING` service is rejected as not active with no
redeployment issued. -/
theorem trigger_only_when_active_witness :
    update_service oracleDraining "tasks" = ⟨TriggerResult.rejectedNotActive, false⟩ :=
  (trigger_only_when_active oracleDraining "tasks").2 (by decide)

/-- C7.  A missing prerequisite (CLI not installed, or cluster lookup
failing) aborts the run with exit status 1, with no per-service outcome
records and no calls of any phase. -/
theorem prereq_failure_aborts_run
    (svcs : List String) (w : String) (o : Oracle)
    (h : o.awsInstalled = false ∨ o.clusterFound = false) :
    runMain svcs w o = ⟨1, [], [], [], emptyTrace⟩ := by
  unfold runMain
  rcases h with h | h
  · simp [h]
  · cases hi : o.awsInstalled <;> simp [h, hi]

/-- C7 witness: the default fleet with the CLI missing. -/
theorem prereq_failure_aborts_run_witness :
    runMain defaultServices "true" oracleNoCli = ⟨1, [], [], [], emptyTrace⟩ :=
  prereq_failure_aborts_run defaultServices "true" oracleNoCli (Or.inl rfl)

/-- C8.  The run is a function of the service list, the configuration and
the collaborator responses: two runs of the same input produce the same
`RunReport`. -/
theorem run_report_deterministic
    (svcs : List String) (w : String) (o : Oracle) (r1 r2 : RunReport)
    (h1 : r1 = runMain svcs w o) (h2 : r2 = runMain svcs w o) :
    r1 = r2 :=
  h1.trans h2.symm

/-- C8 witness: determinism on the default fleet with all calls succeeding. -/
theorem run_report_deterministic_witness :
    runMain defaultServices "true" oracleAllFine = runMain defaultServices "true" oracleAllFine :=
  run_report_deterministic defaultServices "true" oracleAllFine _ _ rfl rfl

/-- C9.  With no positional argument the run triggers exactly
`auth, users, tasks, frontend` in that order; with one (nonempty) positional
argument it triggers exactly that single service.  (A nonempty argument is
required because `[ -z "$1" ]` treats an empty first argument like an absent
one.) -/
theorem service_list_selection
    (s : String) (we : Option String) (o : Oracle)
    (hi : o.awsInstalled = true) (hc : o.clusterFound = true) (hs : s ≠ "") :
    (run none we o).trace.triggerCalls = ["auth", "users", "tasks", "frontend"] ∧
    (run (some s) we o).trace.triggerCalls = [s] := by
  refine ⟨?_, ?_⟩
  · unfold run
    rw [runMain_triggerCalls _ _ _ hi hc]
    rfl
  · unfold run
    rw [runMain_triggerCalls _ _ _ hi hc]
    simp [servicesOf, hs]

/-- C9 witness: default fleet with no argument, single service with
argument `auth`. -/
theorem service_list_selection_witness :
    (run none none oracleAllFine).trace.triggerCalls = ["auth", "users", "tasks", "frontend"] ∧
    (run (some "auth") none oracleAllFine).trace.triggerCalls = ["auth"] :=
  service_list_selection "auth" none oracleAllFine rfl rfl (by decide)

/-- C10 counterexample: with `WAIT_FOR_STABLE=TRUE` the wait phase is indeed
skipped (no wait calls), and the only trigger succeeds — yet the run exits 1,
because the degraded health audit kills it under `set -e` (line 237).  So a
skipped-wait run is not judged on Trigger outcomes alone, contrary to the
claim. -/
theorem skipped_wait_run_not_judged_on_triggers_alone :
    resolveWaitForStable (some "TRUE") ≠ "true" ∧
    triggerOk oracleDegradedHealth "auth" = true ∧
    (runMain ["auth"] (resolveWaitForStable (some "TRUE")) oracleDegradedHealth).trace.waitCalls
      = [] ∧
    (runMain ["auth"] (resolveWaitForStable (some "TRUE")) oracleDegradedHealth).exitCode
      = 1 := by decide

/-- C10 (amended).  The wait phase runs exactly when the resolved
`WAIT_FOR_STABLE` value is the literal string `true` (the default when the
variable is unset or empty); `True`, `TRUE` and `1` all differ from `true`
and skip it.  A skipped-wait run is then judged on the Trigger outcomes and
the final health audit — not on Trigger outcomes alone: it exits 0 when
every trigger and every audit call succeeds, while a degraded or failed
audit still aborts it (see the counterexample). -/
theorem wait_phase_switch_exact_true
    (we : Option String) (svcs : List String) (o : Oracle)
    (hi : o.awsInstalled = true) (hc : o.clusterFound = true)
    (ht : ∀ t ∈ svcs, triggerOk o t = true) :
    ((runMain svcs (resolveWaitForStable we) o).trace.waitCalls
       = if resolveWaitForStable we = "true" then svcs else []) ∧
    resolveWaitForStable none = "true" ∧
    resolveWaitForStable (some "True") ≠ "true" ∧
    resolveWaitForStable (some "TRUE") ≠ "true" ∧
    resolveWaitForStable (some "1") ≠ "true" ∧
    ((∀ t ∈ svcs, check_service_health o t = true ∧ o.depStatusExit t = 0) →
      resolveWaitForStable we ≠ "true" →
      (runMain svcs (resolveWaitForStable we) o).exitCode = 0) := by
  refine ⟨?_, rfl, by decide, by decide, by decide, ?_⟩
  · rw [runMain_waitCalls _ _ _ hi hc ht]
    by_cases hw : resolveWaitForStable we = "true"
    · simp [hw]
    · simp [hw]
  · intro ha hne
    rw [runMain_all_ok svcs (resolveWaitForStable we) o hi hc ht ha]
    have hbeq : (resolveWaitForStable we == "true") = false := by
      cases hb : (resolveWaitForStable we == "true") with
      | false => rfl
      | true => exact absurd (eq_of_beq hb) hne
    simp [hbeq]

/-- C10 witness: `WAIT_FOR_STABLE=TRUE` skips the wait phase on a
successfully triggered single-service run with healthy audits, and that run
exits 0. -/
theorem wait_phase_switch_witness :
    ((runMain ["auth"] (resolveWaitForStable (some "TRUE")) oracleAllFine).trace.waitCalls
       = if resolveWaitForStable (some "TRUE") = "true" then ["auth"] else []) ∧
    (runMain ["auth"] (resolveWaitForStable (some "TRUE")) oracleAllFine).exitCode = 0 :=
  have h := wait_phase_switch_exact_true (some "TRUE") ["auth"] oracleAllFine rfl rfl (by decide)
  ⟨h.1, h.2.2.2.2.2 (by decide) (by decide)⟩

end UpdateServices
